import Mathlib

/-!
Shallow embedding of the RCC clock-tree configuration logic of the
stm32l4x6 HAL (`src/rcc/mod.rs` and `src/rcc/clocking.rs`).

Machine integers (`u8`, `u32`) are modelled as `Nat`; every value that
appears on the accepted paths of the source fits well inside the machine
range, and rejected paths stop (panic) before any arithmetic can wrap.
A Rust panic (`assert!`, `panic!`, `unreachable!`, `unimplemented!`) is
modelled by `Option`/`none`.  Register side effects are modelled as a
trace of `Event` values emitted in source order; busy-wait loops appear
as single wait events (their termination depends on hardware and is not
modelled).  The PWR CR1 register is additionally modelled as explicit
state (`PwrCr1`) on which the trace can be interpreted, so that frame
properties about the DBP bit can be stated.
-/

namespace Stm32

/-- Register operations performed by the clock configuration code, one
constructor per register access site, in the order the source performs
them. -/
inductive Event
  /-- RCC CR: HSION set, HSIKERON and HSIASFS per options. -/
  | hsiOn (always_on auto_start : Bool)
  /-- Busy-wait for HSIRDY. -/
  | waitHsiRdy
  /-- RCC CR: MSIRANGE written, MSIRGSEL set. -/
  | msiConfig (b : Nat)
  /-- Busy-wait for MSIRDY. -/
  | waitMsiRdy
  /-- RCC APB1ENR1: PWREN set (MSI auto-calibration path). -/
  | pwrEnable
  /-- RCC BDCR: LSEON cleared. -/
  | lseOff
  /-- Busy-wait for LSERDY to clear. -/
  | waitLseOff
  /-- RCC BDCR: LSEDRV written and LSEON set. -/
  | lseOn
  /-- Busy-wait for LSERDY to set. -/
  | waitLseOn
  /-- RCC CR: MSIPLLEN set. -/
  | msiPllEn
  /-- RCC CR: HSEON set. -/
  | hseOn
  /-- Busy-wait for HSERDY. -/
  | waitHseRdy
  /-- RCC CR: PLLON cleared. -/
  | pllOff
  /-- Busy-wait for PLLRDY to clear. -/
  | waitPllNotRdy
  /-- RCC PLLCFGR: PLLSRC, PLLM, PLLN, PLLR written. -/
  | pllCfg (src m n r : Nat)
  /-- RCC CR: PLLON set. -/
  | pllOn
  /-- Busy-wait for PLLRDY to set. -/
  | waitPllRdy
  /-- RCC PLLCFGR: PLLREN set. -/
  | pllREnable
  /-- FLASH ACR: LATENCY written. -/
  | acrLatency (lat : Nat)
  /-- RCC CFGR: PPRE2, PPRE1, HPRE, SW written in one modify. -/
  | cfgrModify (ppre2 ppre1 hpre sw : Nat)
  /-- PWR CR1: DBP set. -/
  | pwrCr1DbpSet
  /-- PWR CR1: DBP cleared. -/
  | pwrCr1DbpClear
deriving DecidableEq

/-- High-speed internal 16 MHz RC (`HighSpeedInternal16RC`). -/
structure HighSpeedInternal16RC where
  always_on : Bool
  auto_start : Bool
deriving DecidableEq

/-- Frequency of the HSI16: a fixed 16 MHz. -/
def HighSpeedInternal16RC.freq (_ : HighSpeedInternal16RC) : Nat :=
  16000000

/-- Embedding of `HighSpeedInternal16RC::configure`: enable HSI with its
options, wait for ready, return the frequency and SW code `0b01`. -/
def HighSpeedInternal16RC.configure (s : HighSpeedInternal16RC) :
    List Event × Nat × Nat :=
  ([Event.hsiOn s.always_on s.auto_start, Event.waitHsiRdy], 16000000, 1)

/-- Medium-speed internal RC (`MediumSpeedInternalRC`). -/
structure MediumSpeedInternalRC where
  freq : Nat
  auto_cal : Bool
deriving DecidableEq

/-- Embedding of `MediumSpeedInternalRC::bits`: MSIRANGE encoding for the
supported frequencies; any other frequency panics (`none`). -/
def MediumSpeedInternalRC.bits (s : MediumSpeedInternalRC) : Option Nat :=
  if s.freq = 100000 then some 0
  else if s.freq = 200000 then some 1
  else if s.freq = 400000 then some 2
  else if s.freq = 800000 then some 3
  else if s.freq = 1000000 then some 4
  else if s.freq = 2000000 then some 5
  else if s.freq = 4000000 then some 6
  else if s.freq = 8000000 then some 7
  else if s.freq = 16000000 then some 8
  else if s.freq = 24000000 then some 9
  else if s.freq = 32000000 then some 10
  else if s.freq = 48000000 then some 11
  else none

/-- Embedding of `MediumSpeedInternalRC::configure`: write MSIRANGE, wait
for MSIRDY, optionally run the LSE auto-calibration sequence, and return
the configured frequency with SW code `0b00`. -/
def MediumSpeedInternalRC.configure (s : MediumSpeedInternalRC) :
    Option (List Event × Nat × Nat) :=
  match s.bits with
  | none => none
  | some b =>
    some ([Event.msiConfig b, Event.waitMsiRdy] ++
      (if s.auto_cal then
        [Event.pwrEnable, Event.lseOff, Event.waitLseOff,
         Event.lseOn, Event.waitLseOn, Event.msiPllEn]
      else []),
      s.freq, 0)

/-- High-speed external oscillator (`HighSpeedExternalOSC`). -/
structure HighSpeedExternalOSC where
  freq : Nat
deriving DecidableEq

/-- Embedding of `HighSpeedExternalOSC::configure`: enable HSE, wait for
ready, return the frequency and SW code `0b10`. -/
def HighSpeedExternalOSC.configure (s : HighSpeedExternalOSC) :
    List Event × Nat × Nat :=
  ([Event.hseOn, Event.waitHseRdy], s.freq, 2)

/-- Selectable input clocks to the RTC (`RtcClkSource`). -/
inductive RtcClkSource
  | None
  | LSI
  | LSE
  | HSEDiv32
deriving DecidableEq

/-- Embedding of `RtcClkSource::bits`: the `repr(C)` discriminant of the
variant, in declaration order None, LSI, LSE, HSEDiv32. -/
def RtcClkSource.bits : RtcClkSource → Nat
  | .None => 0
  | .LSI => 1
  | .LSE => 2
  | .HSEDiv32 => 3

/-- Embedding of `RtcClkSource::freq`. -/
def RtcClkSource.freq (s : RtcClkSource) (hse : Option HighSpeedExternalOSC) :
    Option Nat :=
  match s with
  | .None => none
  | .LSI => some 32000
  | .LSE => some 32768
  | .HSEDiv32 =>
    match hse with
    | some clk => some (clk.freq / 32)
    | none => none

/-- The RCC BDCR register, as far as the embedded code touches it: the
2-bit RTCSEL field and (abstractly) everything else. -/
structure BDCRReg where
  rtcsel : Nat
  rest : Nat
deriving DecidableEq

/-- Embedding of `BDCR::set_rtc_clock`: store the variant's `bits()` in
RTCSEL, leaving the rest of the register alone. -/
def BDCR.set_rtc_clock (clock : RtcClkSource) (reg : BDCRReg) : BDCRReg :=
  { reg with rtcsel := clock.bits }

/-- Embedding of `BDCR::rtc_clock`: decode RTCSEL
(0 → None, 1 → LSE, 2 → LSI, 3 → HSEDiv32, otherwise `unimplemented!`). -/
def BDCR.rtc_clock (reg : BDCRReg) : Option RtcClkSource :=
  if reg.rtcsel = 0 then some RtcClkSource.None
  else if reg.rtcsel = 1 then some RtcClkSource.LSE
  else if reg.rtcsel = 2 then some RtcClkSource.LSI
  else if reg.rtcsel = 3 then some RtcClkSource.HSEDiv32
  else none

/-- Selectable PLL module input sources (`PLLClkSource`). -/
inductive PLLClkSource
  | None
  | MSI (s : MediumSpeedInternalRC)
  | HSI16 (s : HighSpeedInternal16RC)
  | HSE (s : HighSpeedExternalOSC)
deriving DecidableEq

/-- Embedding of `InputClock::freq` for `PLLClkSource`. -/
def PLLClkSource.freq : PLLClkSource → Nat
  | .None => 0
  | .MSI s => s.freq
  | .HSI16 _ => 16000000
  | .HSE s => s.freq

/-- Embedding of `PLLClkSource::configure`: configure the chosen input
clock and return the PLLSRC bit code. -/
def PLLClkSource.configure : PLLClkSource → Option (List Event × Nat)
  | .None => some ([], 0)
  | .MSI s =>
    match s.configure with
    | none => none
    | some x => some (x.1, 1)
  | .HSI16 s => some (s.configure.1, 2)
  | .HSE s => some (s.configure.1, 3)

/-- Maximum value for the system clock (`SYS_CLOCK_MAX`). -/
def SYS_CLOCK_MAX : Nat := 80000000

/-- PLLCLK output of the PLL module (`PLLClkOutput`). -/
structure PLLClkOutput where
  src : PLLClkSource
  m : Nat
  n : Nat
  r : Nat
  f : Nat
deriving DecidableEq

/-- Embedding of `PLLClkOutput::new`.  Each failing `assert!` becomes
`none`; the checks run in source order. -/
def PLLClkOutput.new (src : PLLClkSource) (m n r : Nat) :
    Option PLLClkOutput :=
  if m > 0 ∧ m < 9 then
    if n > 7 ∧ n < 87 then
      if r = 2 ∨ r = 4 ∨ r = 6 ∨ r = 8 then
        let vco_if := src.freq / m
        if vco_if ≥ 4000000 ∧ vco_if ≤ 16000000 then
          let vco_of := vco_if * n
          if vco_of ≥ 64000000 ∧ vco_of ≤ 344000000 then
            let f := src.freq / m * n / r
            if f < SYS_CLOCK_MAX then
              some { src := src, m := m, n := n, r := r, f := f }
            else none
          else none
        else none
      else none
    else none
  else none

/-- Embedding of `InputClock::freq` for `PLLClkOutput`. -/
def PLLClkOutput.freq (p : PLLClkOutput) : Nat := p.f

/-- PLLR field encoding used inside `PLLClkOutput::configure`
(2 → 0b00, 4 → 0b01, 6 → 0b10, 8 → 0b11, otherwise panic). -/
def pllRBits (r : Nat) : Option Nat :=
  if r = 2 then some 0
  else if r = 4 then some 1
  else if r = 6 then some 2
  else if r = 8 then some 3
  else none

/-- Embedding of `PLLClkOutput::configure`: configure the input source,
disable the PLL and wait, write PLLSRC/PLLM/PLLN/PLLR (PLLM is stored as
`m - 1`), re-enable the PLL and wait, enable the PLLR output, and return
the achieved frequency with SW code `0b11`. -/
def PLLClkOutput.configure (p : PLLClkOutput) :
    Option (List Event × Nat × Nat) :=
  match p.src.configure with
  | none => none
  | some x =>
    match pllRBits p.r with
    | none => none
    | some rb =>
      some (x.1 ++
        [Event.pllOff, Event.waitPllNotRdy,
         Event.pllCfg x.2 (p.m - 1) p.n rb,
         Event.pllOn, Event.waitPllRdy, Event.pllREnable],
        p.f, 3)

/-- Selectable clocks for the SYSCLK signal (`SysClkSource`). -/
inductive SysClkSource
  | HSI16 (s : HighSpeedInternal16RC)
  | MSI (s : MediumSpeedInternalRC)
  | HSE (s : HighSpeedExternalOSC)
  | PLL (s : PLLClkOutput)
deriving DecidableEq

/-- Embedding of `InputClock::freq` for `SysClkSource`. -/
def SysClkSource.freq : SysClkSource → Nat
  | .HSI16 _ => 16000000
  | .MSI s => s.freq
  | .HSE s => s.freq
  | .PLL s => s.freq

/-- Dispatch of the `configure` call at the top of `CFGR::freeze`. -/
def SysClkSource.configure : SysClkSource → Option (List Event × Nat × Nat)
  | .HSI16 s => some s.configure
  | .MSI s => s.configure
  | .HSE s => some s.configure
  | .PLL s => s.configure

/-- AHB prescaler (HPRE) selection in `CFGR::freeze`: a lookup on the
optional ratio `sys_clock / hclk_target`.  Mirrors the source `match`
arm for arm, with its first-match semantics: `None` and any ratio at or
above 384 both fall into the final catch-all arm `_ => 0b1111`, a ratio
of `Some(0)` is `unreachable!` (panic). -/
def hpreBits (q : Option Nat) : Option Nat :=
  match q with
  | none => some 15
  | some q =>
    if q = 0 then none
    else if q = 1 then some 7
    else if q = 2 then some 8
    else if q ≤ 5 then some 9
    else if q ≤ 11 then some 10
    else if q ≤ 39 then some 11
    else if q ≤ 95 then some 12
    else if q ≤ 191 then some 13
    else if q ≤ 383 then some 14
    else some 15

/-- The divisor `freeze` derives from an HPRE code:
`1 << (hpre_bits - 0b0111)`. -/
def hpreDiv (b : Nat) : Nat := 2 ^ (b - 7)

/-- APB prescaler (PPRE1/PPRE2) selection in `CFGR::freeze`: a lookup on
the optional ratio `ahb / pclk_target`, again arm for arm with the
source `match` (`None` and ratios at or above 12 fall into the final
catch-all `_ => 0b111`, `Some(0)` is `unreachable!`). -/
def ppreBits (q : Option Nat) : Option Nat :=
  match q with
  | none => some 7
  | some q =>
    if q = 0 then none
    else if q = 1 then some 3
    else if q = 2 then some 4
    else if q ≤ 5 then some 5
    else if q ≤ 11 then some 6
    else some 7

/-- The divisor `freeze` derives from a PPRE code:
`1 << (ppre_bits - 0b011)`. -/
def ppreDiv (b : Nat) : Nat := 2 ^ (b - 3)

/-- Flash wait-state selection in `CFGR::freeze`.  The last two tier
bounds transcribe the source literals `48_000_00` and `64_000_00`
exactly: those are 4,800,000 and 6,400,000 (seven digits, not eight). -/
def flashLatency (sys_clock : Nat) : Nat :=
  if sys_clock ≤ 16000000 then 0
  else if sys_clock ≤ 32000000 then 1
  else if sys_clock ≤ 4800000 then 2
  else if sys_clock ≤ 6400000 then 3
  else 4

/-- Clock configuration builder (`CFGR`). -/
structure CFGR where
  hclk : Option Nat
  pclk1 : Option Nat
  pclk2 : Option Nat
  sysclk : SysClkSource
deriving DecidableEq

/-- Frozen clock frequencies (`Clocks`). -/
structure Clocks where
  hclk : Nat
  pclk1 : Nat
  pclk2 : Nat
  sysclk : Nat
  pll_src : Option PLLClkSource
  pll_psc : Option Nat
  ppre1 : Nat
  ppre2 : Nat
deriving DecidableEq

/-- The `pll_src` field computed at the end of `freeze`. -/
def pllSrcOf : SysClkSource → Option PLLClkSource
  | .PLL s => some s.src
  | _ => none

/-- The `pll_psc` field computed at the end of `freeze`. -/
def pllPscOf : SysClkSource → Option Nat
  | .PLL s => some s.m
  | _ => none

/-- Embedding of `CFGR::freeze`: configure the SYSCLK source, choose the
AHB then APB1/APB2 prescaler codes from frequency ratios, compute the
flash latency, then write the ACR latency, the CFGR prescalers+switch,
and finally clear the PWR CR1 DBP bit, returning the trace of register
events together with the `Clocks` snapshot. -/
def CFGR.freeze (c : CFGR) : Option (List Event × Clocks) :=
  match c.sysclk.configure with
  | none => none
  | some (ev0, sys_clock, sw_bits) =>
    match hpreBits (c.hclk.map (fun hclk => sys_clock / hclk)) with
    | none => none
    | some hpre_bits =>
      let ahb := sys_clock / hpreDiv hpre_bits
      match ppreBits (c.pclk1.map (fun pclk1 => ahb / pclk1)) with
      | none => none
      | some ppre1_bits =>
        let ppre1 := ppreDiv ppre1_bits
        let apb1 := ahb / ppre1
        match ppreBits (c.pclk2.map (fun pclk2 => ahb / pclk2)) with
        | none => none
        | some ppre2_bits =>
          let ppre2 := ppreDiv ppre2_bits
          let apb2 := ahb / ppre2
          let latency := flashLatency sys_clock
          some (ev0 ++
            [Event.acrLatency latency,
             Event.cfgrModify ppre2_bits ppre1_bits hpre_bits sw_bits,
             Event.pwrCr1DbpClear],
            { hclk := ahb, pclk1 := apb1, pclk2 := apb2,
              sysclk := sys_clock,
              pll_src := pllSrcOf c.sysclk, pll_psc := pllPscOf c.sysclk,
              ppre1 := ppre1, ppre2 := ppre2 })

/-- The CFGR value installed by `Constrain::constrain` for RCC: no bus
targets, SYSCLK driven by MSI at 4 MHz without auto-calibration. -/
def defaultCFGR : CFGR :=
  { hclk := none, pclk1 := none, pclk2 := none,
    sysclk := SysClkSource.MSI { freq := 4000000, auto_cal := false } }

/-- Embedding of `Constrain::constrain` for RCC: its register effect
(setting the PWR CR1 DBP bit) and the initial clock configuration. -/
def constrain : List Event × CFGR :=
  ([Event.pwrCr1DbpSet], defaultCFGR)

/-- The PWR CR1 register: the DBP bit and (abstractly) every other
field. -/
structure PwrCr1 where
  dbp : Bool
  rest : Nat
deriving DecidableEq

/-- Interpretation of one event on the PWR CR1 register: only the two
DBP accesses touch it; every other event addresses a different
register. -/
def applyPwr (c : PwrCr1) : Event → PwrCr1
  | Event.pwrCr1DbpSet => { c with dbp := true }
  | Event.pwrCr1DbpClear => { c with dbp := false }
  | _ => c

/-- Interpretation of a whole event trace on the PWR CR1 register. -/
def runPwr (t : List Event) (c : PwrCr1) : PwrCr1 :=
  t.foldl applyPwr c

/-- Events emitted while configuring a clock source: everything except
the flash ACR write, the RCC CFGR switch write and the PWR CR1 DBP
accesses. -/
def Event.isSourceCfg : Event → Bool
  | Event.acrLatency _ => false
  | Event.cfgrModify _ _ _ _ => false
  | Event.pwrCr1DbpSet => false
  | Event.pwrCr1DbpClear => false
  | _ => true

/-- The register-event trace `freeze` emits for the default
configuration (MSI 4 MHz, MSIRANGE code 6, no bus targets). -/
def defaultFreezeTrace : List Event :=
  [Event.msiConfig 6, Event.waitMsiRdy, Event.acrLatency 0,
   Event.cfgrModify 7 7 15 0, Event.pwrCr1DbpClear]

/-- The `Clocks` snapshot `freeze` returns for the default
configuration. -/
def defaultFreezeClocks : Clocks :=
  { hclk := 15625, pclk1 := 976, pclk2 := 976, sysclk := 4000000,
    pll_src := none, pll_psc := none, ppre1 := 16, ppre2 := 16 }

end Stm32

namespace Stm32

/-- Characterisation of the AHB prescaler lookup on present ratios. -/
theorem hpreBits_char (q b : Nat) (h : hpreBits (some q) = some b) :
    (q = 1 ∧ b = 7) ∨ (q = 2 ∧ b = 8) ∨ (3 ≤ q ∧ q ≤ 5 ∧ b = 9) ∨
    (6 ≤ q ∧ q ≤ 11 ∧ b = 10) ∨ (12 ≤ q ∧ q ≤ 39 ∧ b = 11) ∨
    (40 ≤ q ∧ q ≤ 95 ∧ b = 12) ∨ (96 ≤ q ∧ q ≤ 191 ∧ b = 13) ∨
    (192 ≤ q ∧ q ≤ 383 ∧ b = 14) ∨ (384 ≤ q ∧ b = 15) := by
  simp only [hpreBits] at h
  split_ifs at h <;> simp_all <;> omega

/-- Characterisation of the APB prescaler lookup on present ratios. -/
theorem ppreBits_char (q b : Nat) (h : ppreBits (some q) = some b) :
    (q = 1 ∧ b = 3) ∨ (q = 2 ∧ b = 4) ∨ (3 ≤ q ∧ q ≤ 5 ∧ b = 5) ∨
    (6 ≤ q ∧ q ≤ 11 ∧ b = 6) ∨ (12 ≤ q ∧ b = 7) := by
  simp only [ppreBits] at h
  split_ifs at h <;> simp_all <;> omega

/-- A source-configuration event is neither the flash latency write nor
the CFGR switch write. -/
theorem sourceCfg_ne (e : Event) (h : e.isSourceCfg = true) :
    (∀ x, e ≠ Event.acrLatency x) ∧
    (∀ a b u v, e ≠ Event.cfgrModify a b u v) := by
  cases e <;> simp_all [Event.isSourceCfg]

/-- A source-configuration event leaves the PWR CR1 register alone. -/
theorem sourceCfg_applyPwr (c : PwrCr1) (e : Event) (h : e.isSourceCfg = true) :
    applyPwr c e = c := by
  cases e <;> simp_all [Event.isSourceCfg, applyPwr]

/-- Interpreting a concatenated trace on PWR CR1 runs the parts in
order. -/
theorem runPwr_append (t1 t2 : List Event) (c : PwrCr1) :
    runPwr (t1 ++ t2) c = runPwr t2 (runPwr t1 c) :=
  List.foldl_append _ _ _ _

/-- A trace of source-configuration events leaves PWR CR1 unchanged. -/
theorem runPwr_neutral (t : List Event) (c : PwrCr1)
    (h : ∀ e ∈ t, e.isSourceCfg = true) : runPwr t c = c := by
  induction t generalizing c with
  | nil => rfl
  | cons e t ih =>
    have he : applyPwr c e = c := sourceCfg_applyPwr c e (h e (by simp))
    show runPwr t (applyPwr c e) = c
    rw [he]
    exact ih c (fun x hx => h x (by simp [hx]))

/-- Every event emitted by `MediumSpeedInternalRC::configure` is a
source-configuration event. -/
theorem msi_events (s : MediumSpeedInternalRC) (ev : List Event) (f sw : Nat)
    (h : s.configure = some (ev, f, sw)) : ∀ e ∈ ev, e.isSourceCfg = true := by
  unfold MediumSpeedInternalRC.configure at h
  cases hb : s.bits <;> rw [hb] at h
  · simp at h
  · simp only [Option.some.injEq, Prod.mk.injEq] at h
    obtain ⟨hev, -, -⟩ := h
    subst hev
    intro e he
    rcases List.mem_append.1 he with h1 | h1
    · simp only [List.mem_cons, List.not_mem_nil, or_false] at h1
      rcases h1 with rfl | rfl <;> rfl
    · by_cases hac : s.auto_cal = true
      · rw [if_pos hac] at h1
        simp only [List.mem_cons, List.not_mem_nil, or_false] at h1
        rcases h1 with rfl | rfl | rfl | rfl | rfl | rfl <;> rfl
      · rw [if_neg hac] at h1
        simp at h1

/-- Every event emitted by `PLLClkSource::configure` is a
source-configuration event. -/
theorem pllsrc_events (s : PLLClkSource) (ev : List Event) (sb : Nat)
    (h : s.configure = some (ev, sb)) : ∀ e ∈ ev, e.isSourceCfg = true := by
  cases s with
  | None =>
    simp only [PLLClkSource.configure, Option.some.injEq, Prod.mk.injEq] at h
    obtain ⟨hev, -⟩ := h
    subst hev
    simp
  | MSI m =>
    simp only [PLLClkSource.configure] at h
    cases hc : m.configure <;> rw [hc] at h
    · simp at h
    case some x =>
      obtain ⟨ev0, f0, sw0⟩ := x
      simp only [Option.some.injEq, Prod.mk.injEq] at h
      obtain ⟨hev, -⟩ := h
      subst hev
      exact msi_events m ev0 f0 sw0 hc
  | HSI16 hsi =>
    simp only [PLLClkSource.configure, HighSpeedInternal16RC.configure,
      Option.some.injEq, Prod.mk.injEq] at h
    obtain ⟨hev, -⟩ := h
    subst hev
    intro e he
    simp only [List.mem_cons, List.not_mem_nil, or_false] at he
    rcases he with rfl | rfl <;> rfl
  | HSE hse =>
    simp only [PLLClkSource.configure, HighSpeedExternalOSC.configure,
      Option.some.injEq, Prod.mk.injEq] at h
    obtain ⟨hev, -⟩ := h
    subst hev
    intro e he
    simp only [List.mem_cons, List.not_mem_nil, or_false] at he
    rcases he with rfl | rfl <;> rfl

/-- Every event emitted while configuring the SYSCLK source is a
source-configuration event. -/
theorem sys_events (s : SysClkSource) (ev : List Event) (f sw : Nat)
    (h : s.configure = some (ev, f, sw)) : ∀ e ∈ ev, e.isSourceCfg = true := by
  cases s with
  | HSI16 hsi =>
    simp only [SysClkSource.configure, HighSpeedInternal16RC.configure,
      Option.some.injEq, Prod.mk.injEq] at h
    obtain ⟨hev, -, -⟩ := h
    subst hev
    intro e he
    simp only [List.mem_cons, List.not_mem_nil, or_false] at he
    rcases he with rfl | rfl <;> rfl
  | MSI m => exact msi_events m ev f sw h
  | HSE hse =>
    simp only [SysClkSource.configure, HighSpeedExternalOSC.configure,
      Option.some.injEq, Prod.mk.injEq] at h
    obtain ⟨hev, -, -⟩ := h
    subst hev
    intro e he
    simp only [List.mem_cons, List.not_mem_nil, or_false] at he
    rcases he with rfl | rfl <;> rfl
  | PLL p =>
    simp only [SysClkSource.configure, PLLClkOutput.configure] at h
    cases hc : p.src.configure <;> rw [hc] at h
    · simp at h
    case some x =>
      cases hr : pllRBits p.r <;> rw [hr] at h
      · simp at h
      case some rb =>
        simp only [Option.some.injEq, Prod.mk.injEq] at h
        obtain ⟨hev, -, -⟩ := h
        subst hev
        intro e he
        rcases List.mem_append.1 he with h1 | h1
        · exact pllsrc_events p.src x.1 x.2 (by rw [hc]) e h1
        · simp only [List.mem_cons, List.not_mem_nil, or_false] at h1
          rcases h1 with rfl | rfl | rfl | rfl | rfl | rfl <;> rfl

/-- Full destructuring of a successful `freeze`: the trace and every
field of the returned `Clocks` value in terms of the chosen prescaler
codes. -/
theorem freeze_shape (c : CFGR) (tr : List Event) (clk : Clocks)
    (h : c.freeze = some (tr, clk)) :
    ∃ ev0 sw hb b1 b2,
      c.sysclk.configure = some (ev0, clk.sysclk, sw) ∧
      hpreBits (c.hclk.map (fun x => clk.sysclk / x)) = some hb ∧
      clk.hclk = clk.sysclk / hpreDiv hb ∧
      ppreBits (c.pclk1.map (fun x => clk.hclk / x)) = some b1 ∧
      clk.ppre1 = ppreDiv b1 ∧ clk.pclk1 = clk.hclk / clk.ppre1 ∧
      ppreBits (c.pclk2.map (fun x => clk.hclk / x)) = some b2 ∧
      clk.ppre2 = ppreDiv b2 ∧ clk.pclk2 = clk.hclk / clk.ppre2 ∧
      clk.pll_src = pllSrcOf c.sysclk ∧ clk.pll_psc = pllPscOf c.sysclk ∧
      tr = ev0 ++ [Event.acrLatency (flashLatency clk.sysclk),
                   Event.cfgrModify b2 b1 hb sw,
                   Event.pwrCr1DbpClear] := by
  simp only [CFGR.freeze] at h
  split at h
  · exact absurd h (by simp)
  · split at h
    · exact absurd h (by simp)
    · split at h
      · exact absurd h (by simp)
      · split at h
        · exact absurd h (by simp)
        · rename_i s1 ev0 sys_clock sw_bits hcfg s2 hbc hhp s3 b1c hp1 s4 b2c hp2
          rw [Option.some.injEq, Prod.mk.injEq] at h
          obtain ⟨htr, hclkeq⟩ := h
          subst htr
          subst hclkeq
          exact ⟨ev0, sw_bits, hbc, b1c, b2c, hcfg, hhp, rfl, hp1, rfl, rfl, hp2, rfl,
            rfl, rfl, rfl, rfl⟩

end Stm32

namespace Stm32

/-- C1: evaluation of `CFGR::freeze` at the default configuration
installed by `constrain` (MSI at 4 MHz, no hclk/pclk1/pclk2 target).
Because the ratio `Option` is `None`, every prescaler `match` falls into
its catch-all arm, so the chosen codes are HPRE = 0b1111 and
PPRE1 = PPRE2 = 0b111, whose implied divisors are 256 and 16: the
returned `Clocks` value is hclk = 15625, pclk1 = pclk2 = 976,
sysclk = 4,000,000 — not divide-by-1 on every bus. -/
theorem freeze_default_clocks :
    CFGR.freeze defaultCFGR = some (defaultFreezeTrace, defaultFreezeClocks) ∧
    defaultFreezeClocks.hclk = 15625 ∧ defaultFreezeClocks.pclk1 = 976 ∧
    defaultFreezeClocks.pclk2 = 976 ∧ defaultFreezeClocks.sysclk = 4000000 := by
  decide

/-- C2: evaluation of the flash wait-state computation in `freeze`.  The
first two tiers behave as the 5-tier table says (20 MHz → code 1), but
because the source literals for the third and fourth tiers are
`48_000_00` and `64_000_00` (4.8 MHz and 6.4 MHz), every SYSCLK above
32 MHz gets code 4: 40 MHz and 60 MHz both yield 4, never 2 or 3. -/
theorem flash_latency_eval :
    flashLatency 16000000 = 0 ∧ flashLatency 20000000 = 1 ∧
    flashLatency 32000000 = 1 ∧ flashLatency 40000000 = 4 ∧
    flashLatency 48000000 = 4 ∧ flashLatency 60000000 = 4 ∧
    flashLatency 64000000 = 4 ∧ flashLatency 80000000 = 4 := by
  decide

/-- C3: `PLLClkOutput::new` fails exactly when the parameters are
invalid — m outside [1,8], n outside [8,86], r not in {2,4,6,8}, VCO
input frequency `src.freq()/m` outside [4 MHz, 16 MHz], VCO output
`(src.freq()/m)*n` outside [64 MHz, 344 MHz], or final output frequency
at least 80 MHz; in particular the boundary scenario HSI16, m = 2,
n = 20, r = 2 (output exactly 80 MHz) is rejected. -/
theorem pll_new_fails_iff :
    (∀ (src : PLLClkSource) (m n r : Nat),
      PLLClkOutput.new src m n r = none ↔
        (¬(1 ≤ m ∧ m ≤ 8) ∨ ¬(8 ≤ n ∧ n ≤ 86) ∨
         ¬(r = 2 ∨ r = 4 ∨ r = 6 ∨ r = 8) ∨
         ¬(4000000 ≤ src.freq / m ∧ src.freq / m ≤ 16000000) ∨
         ¬(64000000 ≤ src.freq / m * n ∧ src.freq / m * n ≤ 344000000) ∨
         80000000 ≤ src.freq / m * n / r)) ∧
    PLLClkOutput.new (PLLClkSource.HSI16 { always_on := false, auto_start := false }) 2 20 2
      = none := by
  constructor
  · intro src m n r
    have hm : (m > 0 ∧ m < 9) ↔ (1 ≤ m ∧ m ≤ 8) := by omega
    have hn : (n > 7 ∧ n < 87) ↔ (8 ≤ n ∧ n ≤ 86) := by omega
    simp only [PLLClkOutput.new, SYS_CLOCK_MAX, ge_iff_le]
    split_ifs with h1 h2 h3 h4 h5 h6
    · simp only [reduceCtorEq, false_iff]
      push_neg
      exact ⟨hm.mp h1, hn.mp h2, h3, h4, h5, h6⟩
    · simp only [true_iff]
      exact Or.inr (Or.inr (Or.inr (Or.inr (Or.inr (Nat.le_of_not_lt h6)))))
    · simp only [true_iff]
      exact Or.inr (Or.inr (Or.inr (Or.inr (Or.inl h5))))
    · simp only [true_iff]
      exact Or.inr (Or.inr (Or.inr (Or.inl h4)))
    · simp only [true_iff]
      exact Or.inr (Or.inr (Or.inl h3))
    · simp only [true_iff]
      exact Or.inr (Or.inl (fun hc => h2 (hn.mpr hc)))
    · simp only [true_iff]
      exact Or.inl (fun hc => h1 (hm.mpr hc))
  · decide

/-- C4: every `PLLClkOutput` accepted by `new` reports, via `freq()`,
exactly the value `src.freq() / m * n / r` evaluated left to right in
integer arithmetic. -/
theorem pll_freq_eq (src : PLLClkSource) (m n r : Nat) (p : PLLClkOutput)
    (h : PLLClkOutput.new src m n r = some p) :
    p.freq = src.freq / m * n / r := by
  simp only [PLLClkOutput.new] at h
  split_ifs at h
  rw [Option.some.injEq] at h
  subst h
  rfl

/-- C4 witness: the accepted combination HSI16, m = 1, n = 8, r = 2. -/
theorem pll_freq_eq_w :
    PLLClkOutput.freq
      { src := PLLClkSource.HSI16 { always_on := false, auto_start := false },
        m := 1, n := 8, r := 2, f := 64000000 } =
      (PLLClkSource.HSI16 { always_on := false, auto_start := false }).freq / 1 * 8 / 2 :=
  pll_freq_eq (PLLClkSource.HSI16 { always_on := false, auto_start := false })
    1 8 2
    { src := PLLClkSource.HSI16 { always_on := false, auto_start := false },
      m := 1, n := 8, r := 2, f := 64000000 }
    rfl

/-- C5 counterexample: the AHB lookup is not idempotent under the
divisor formula `freeze` itself uses.  A requested ratio of 40 selects
code 0b1100, whose implied divisor is `1 << (12 - 7) = 32`; looking 32
up again lands in the 12–39 bucket and returns code 0b1011 instead. -/
theorem prescaler_idempotent_cex :
    (hpreBits (some 40)).bind (fun b => hpreBits (some (hpreDiv b))) ≠
      hpreBits (some 40) := by
  decide

/-- C5 (amended): both prescaler tables are monotonic — a larger
requested ratio never yields a smaller implied divisor — and the APB
table is idempotent at every ratio, while the AHB table is idempotent
only on ratios up to 39 (codes up to 0b1011). -/
theorem prescaler_tables_mono_idem :
    (∀ q1 q2 b1 b2, q1 ≤ q2 → hpreBits (some q1) = some b1 →
       hpreBits (some q2) = some b2 → hpreDiv b1 ≤ hpreDiv b2) ∧
    (∀ q1 q2 b1 b2, q1 ≤ q2 → ppreBits (some q1) = some b1 →
       ppreBits (some q2) = some b2 → ppreDiv b1 ≤ ppreDiv b2) ∧
    (∀ q b, ppreBits (some q) = some b → ppreBits (some (ppreDiv b)) = some b) ∧
    (∀ q b, q ≤ 39 → hpreBits (some q) = some b →
       hpreBits (some (hpreDiv b)) = some b) := by
  refine ⟨?_, ?_, ?_, ?_⟩
  · intro q1 q2 b1 b2 hle h1 h2
    have c1 := hpreBits_char q1 b1 h1
    have c2 := hpreBits_char q2 b2 h2
    have hb : b1 ≤ b2 := by omega
    exact Nat.pow_le_pow_right (by norm_num) (by omega)
  · intro q1 q2 b1 b2 hle h1 h2
    have c1 := ppreBits_char q1 b1 h1
    have c2 := ppreBits_char q2 b2 h2
    have hb : b1 ≤ b2 := by omega
    exact Nat.pow_le_pow_right (by norm_num) (by omega)
  · intro q b h
    have c := ppreBits_char q b h
    rcases c with ⟨-, rfl⟩ | ⟨-, rfl⟩ | ⟨-, -, rfl⟩ | ⟨-, -, rfl⟩ | ⟨-, rfl⟩ <;> decide
  · intro q b hq h
    have c := hpreBits_char q b h
    rcases c with ⟨-, rfl⟩ | ⟨-, rfl⟩ | ⟨-, -, rfl⟩ | ⟨-, -, rfl⟩ | ⟨-, -, rfl⟩ |
      ⟨hlo, -, rfl⟩ | ⟨hlo, -, rfl⟩ | ⟨hlo, -, rfl⟩ | ⟨hlo, rfl⟩ <;> first | decide | omega

/-- C5 witness: monotonicity at ratios 1 ≤ 3 (AHB) and 1 ≤ 20 (APB),
APB idempotence at ratio 4 (code 0b101), AHB idempotence at ratio 16
(code 0b1011). -/
theorem prescaler_tables_mono_idem_w :
    hpreDiv 7 ≤ hpreDiv 9 ∧ ppreDiv 3 ≤ ppreDiv 7 ∧
    ppreBits (some 4) = some 5 ∧ hpreBits (some 16) = some 11 :=
  ⟨prescaler_tables_mono_idem.1 1 3 7 9 (by decide) rfl rfl,
   prescaler_tables_mono_idem.2.1 1 20 3 7 (by decide) rfl rfl,
   prescaler_tables_mono_idem.2.2.1 4 5 rfl,
   prescaler_tables_mono_idem.2.2.2 16 11 (by decide) rfl⟩

/-- C6: in every successful `freeze` trace, the flash latency write is
emitted strictly before the CFGR write that changes the prescalers and
the SYSCLK switch bits: the trace is some prefix of source-configuration
events (containing no latency and no CFGR-switch write), then the ACR
latency write, then the CFGR write, then the DBP clear. -/
theorem latency_before_switch (c : CFGR) (tr : List Event) (clk : Clocks)
    (h : c.freeze = some (tr, clk)) :
    ∃ pre lat p2 p1 hp sw,
      tr = pre ++ [Event.acrLatency lat, Event.cfgrModify p2 p1 hp sw,
                   Event.pwrCr1DbpClear] ∧
      ∀ e ∈ pre, (∀ x, e ≠ Event.acrLatency x) ∧
        (∀ a b u v, e ≠ Event.cfgrModify a b u v) := by
  obtain ⟨ev0, sw, hb, b1, b2, hcfg, -, -, -, -, -, -, -, -, -, -, htr⟩ :=
    freeze_shape c tr clk h
  refine ⟨ev0, flashLatency clk.sysclk, b2, b1, hb, sw, htr, ?_⟩
  intro e he
  exact sourceCfg_ne e (sys_events c.sysclk ev0 clk.sysclk sw hcfg e he)

/-- C6 witness: the default configuration's freeze trace. -/
theorem latency_before_switch_w :
    ∃ pre lat p2 p1 hp sw,
      defaultFreezeTrace =
        pre ++ [Event.acrLatency lat, Event.cfgrModify p2 p1 hp sw,
                Event.pwrCr1DbpClear] ∧
      ∀ e ∈ pre, (∀ x, e ≠ Event.acrLatency x) ∧
        (∀ a b u v, e ≠ Event.cfgrModify a b u v) :=
  latency_before_switch defaultCFGR defaultFreezeTrace defaultFreezeClocks rfl

/-- C7: `PLLClkOutput::configure` first emits its input source's
configuration events, then disables the PLL and waits for not-ready,
then writes PLLSRC/PLLM/PLLN/PLLR (PLLM as m−1, PLLR via its 2-bit
encoding), then enables the PLL and waits for ready, then sets PLLREN;
it returns the achieved frequency with the SYSCLK source code 0b11. -/
theorem pll_configure_order (p : PLLClkOutput) (ev0 : List Event) (sb : Nat)
    (h1 : p.src.configure = some (ev0, sb))
    (h2 : p.r = 2 ∨ p.r = 4 ∨ p.r = 6 ∨ p.r = 8) :
    ∃ rb, pllRBits p.r = some rb ∧
      p.configure = some (ev0 ++
        [Event.pllOff, Event.waitPllNotRdy, Event.pllCfg sb (p.m - 1) p.n rb,
         Event.pllOn, Event.waitPllRdy, Event.pllREnable],
        p.f, 3) := by
  have hrb : ∃ rb, pllRBits p.r = some rb := by
    rcases h2 with h | h | h | h <;> rw [h] <;> exact ⟨_, rfl⟩
  obtain ⟨rb, hrb⟩ := hrb
  refine ⟨rb, hrb, ?_⟩
  unfold PLLClkOutput.configure
  rw [h1, hrb]

/-- C7 witness: the PLL driven by HSI16 with m = 1, n = 8, r = 2. -/
theorem pll_configure_order_w :
    ∃ rb, pllRBits 2 = some rb ∧
      PLLClkOutput.configure
        { src := PLLClkSource.HSI16 { always_on := false, auto_start := false },
          m := 1, n := 8, r := 2, f := 64000000 } =
        some ([Event.hsiOn false false, Event.waitHsiRdy] ++
          [Event.pllOff, Event.waitPllNotRdy, Event.pllCfg 2 0 8 rb,
           Event.pllOn, Event.waitPllRdy, Event.pllREnable],
          64000000, 3) :=
  pll_configure_order
    { src := PLLClkSource.HSI16 { always_on := false, auto_start := false },
      m := 1, n := 8, r := 2, f := 64000000 }
    [Event.hsiOn false false, Event.waitHsiRdy] 2 rfl (Or.inl rfl)

/-- C8: the bus frequencies recorded by `freeze` form the serial chain
SYSCLK → AHB → APB1/APB2: the AHB frequency is SYSCLK divided by the
divisor of the HPRE code chosen from the SYSCLK ratio, and each APB
frequency is the AHB frequency (not SYSCLK) divided by the divisor of
the PPRE code chosen from a ratio computed on the AHB frequency. -/
theorem apb_from_ahb_chain (c : CFGR) (tr : List Event) (clk : Clocks)
    (h : c.freeze = some (tr, clk)) :
    (∃ hb, hpreBits (c.hclk.map (fun x => clk.sysclk / x)) = some hb ∧
       clk.hclk = clk.sysclk / hpreDiv hb) ∧
    (∃ b1, ppreBits (c.pclk1.map (fun x => clk.hclk / x)) = some b1 ∧
       clk.ppre1 = ppreDiv b1 ∧ clk.pclk1 = clk.hclk / clk.ppre1) ∧
    (∃ b2, ppreBits (c.pclk2.map (fun x => clk.hclk / x)) = some b2 ∧
       clk.ppre2 = ppreDiv b2 ∧ clk.pclk2 = clk.hclk / clk.ppre2) := by
  obtain ⟨ev0, sw, hb, b1, b2, -, hhp, hahb, hp1, hd1, hc1, hp2, hd2, hc2, -, -, -⟩ :=
    freeze_shape c tr clk h
  exact ⟨⟨hb, hhp, hahb⟩, ⟨b1, hp1, hd1, hc1⟩, ⟨b2, hp2, hd2, hc2⟩⟩

/-- C8 witness: the default configuration. -/
theorem apb_from_ahb_chain_w :
    (∃ hb, hpreBits (defaultCFGR.hclk.map
         (fun x => defaultFreezeClocks.sysclk / x)) = some hb ∧
       defaultFreezeClocks.hclk = defaultFreezeClocks.sysclk / hpreDiv hb) ∧
    (∃ b1, ppreBits (defaultCFGR.pclk1.map
         (fun x => defaultFreezeClocks.hclk / x)) = some b1 ∧
       defaultFreezeClocks.ppre1 = ppreDiv b1 ∧
       defaultFreezeClocks.pclk1 =
         defaultFreezeClocks.hclk / defaultFreezeClocks.ppre1) ∧
    (∃ b2, ppreBits (defaultCFGR.pclk2.map
         (fun x => defaultFreezeClocks.hclk / x)) = some b2 ∧
       defaultFreezeClocks.ppre2 = ppreDiv b2 ∧
       defaultFreezeClocks.pclk2 =
         defaultFreezeClocks.hclk / defaultFreezeClocks.ppre2) :=
  apb_from_ahb_chain defaultCFGR defaultFreezeTrace defaultFreezeClocks rfl

/-- C9: the backup-domain write-access bracket is symmetric — on any
initial PWR CR1 state, `constrain`'s trace sets the DBP bit and changes
nothing else, and every successful `freeze` trace ends with DBP cleared
while every other PWR CR1 field is left exactly as it was. -/
theorem dbp_bracket (c : CFGR) (tr : List Event) (clk : Clocks) (s0 s1 : PwrCr1)
    (h : c.freeze = some (tr, clk)) :
    (runPwr constrain.1 s0).dbp = true ∧ (runPwr constrain.1 s0).rest = s0.rest ∧
    (runPwr tr s1).dbp = false ∧ (runPwr tr s1).rest = s1.rest := by
  obtain ⟨ev0, sw, hb, b1, b2, hcfg, -, -, -, -, -, -, -, -, -, -, htr⟩ :=
    freeze_shape c tr clk h
  subst htr
  have hev0 : runPwr ev0 s1 = s1 :=
    runPwr_neutral ev0 s1 (sys_events c.sysclk ev0 clk.sysclk sw hcfg)
  rw [runPwr_append, hev0]
  exact ⟨rfl, rfl, rfl, rfl⟩

/-- C9 witness: the default configuration, on concrete PWR CR1 states. -/
theorem dbp_bracket_w :
    (runPwr constrain.1 { dbp := false, rest := 3 }).dbp = true ∧
    (runPwr constrain.1 { dbp := false, rest := 3 }).rest =
      ({ dbp := false, rest := 3 } : PwrCr1).rest ∧
    (runPwr defaultFreezeTrace { dbp := true, rest := 5 }).dbp = false ∧
    (runPwr defaultFreezeTrace { dbp := true, rest := 5 }).rest =
      ({ dbp := true, rest := 5 } : PwrCr1).rest :=
  dbp_bracket defaultCFGR defaultFreezeTrace defaultFreezeClocks
    { dbp := false, rest := 3 } { dbp := true, rest := 5 } rfl

/-- C10: evaluation of the RTC clock write/read pair on every variant.
`set_rtc_clock` stores the declaration-order discriminant
(None = 0, LSI = 1, LSE = 2, HSEDiv32 = 3) while `rtc_clock` decodes the
hardware RTCSEL table (1 → LSE, 2 → LSI), so the round-trip swaps LSI
and LSE and is the identity only on None and HSEDiv32. -/
theorem rtc_clock_roundtrip_eval (reg : BDCRReg) :
    BDCR.rtc_clock (BDCR.set_rtc_clock RtcClkSource.None reg) =
      some RtcClkSource.None ∧
    BDCR.rtc_clock (BDCR.set_rtc_clock RtcClkSource.LSI reg) =
      some RtcClkSource.LSE ∧
    BDCR.rtc_clock (BDCR.set_rtc_clock RtcClkSource.LSE reg) =
      some RtcClkSource.LSI ∧
    BDCR.rtc_clock (BDCR.set_rtc_clock RtcClkSource.HSEDiv32 reg) =
      some RtcClkSource.HSEDiv32 :=
  ⟨rfl, rfl, rfl, rfl⟩

end Stm32
